import Mathlib

/-!
Verification of the rosetrap single-value mailbox system: a server-side
per-key state hub (`server_data_hub.py`) and the client protocol driver
(`core_utils.py`), embedded shallowly as pure state-transition functions.
-/

/-- Per-key server state, mirroring the dictionaries stored in `DATA_HUB`:
`value` (None until published), `lookout` (armed flag), the asyncio `Event`
modelled by its set/clear bit `eventSet`, and `response_message`. -/
structure VarState where
  value : Option String
  lookout : Bool
  eventSet : Bool
  response_message : String
deriving DecidableEq, Repr

/-- The state `get_variable_state` lazily creates for an unseen key. -/
def initVarState : VarState :=
  { value := none, lookout := false, eventSet := false, response_message := "" }

/-- The whole `DATA_HUB`: since `get_variable_state` initializes a missing
key to `initVarState`, a missing key and a freshly created one are
observationally equal, so the hub is a total map from keys to states. -/
def Hub : Type := String → VarState

/-- The hub at server start: every key unseen. -/
def emptyHub : Hub := fun _ => initVarState

/-- `get_variable_state`: read a key's state (lazy creation is invisible). -/
def get_variable_state (h : Hub) (k : String) : VarState := h k

/-- Point update of the hub at one key. -/
def setVar (h : Hub) (k : String) (s : VarState) : Hub :=
  fun q => if q = k then s else h q

/-- A JSON response body: `status` plus optional `value` and `message`. -/
structure Response where
  status : String
  value : Option String := none
  message : Option String := none
deriving DecidableEq, Repr

/-- `/request_data` (CheckStatus): READY with the value if present, else
PENDING; no state mutation besides lazy creation. -/
def request_data (h : Hub) (k : String) : Response × Hub :=
  match (get_variable_state h k).value with
  | some v => ({ status := "READY", value := some v }, h)
  | none => ({ status := "PENDING" }, h)

/-- `/set_lookout` (ArmAndWait) up to the suspension point: if the value is
already present, return READY immediately with the hub untouched
(`some` response); otherwise set `lookout := true`, clear the event, and
suspend (`none` response, mutated hub). -/
def set_lookout_entry (h : Hub) (k : String) : Option Response × Hub :=
  let st := get_variable_state h k
  match st.value with
  | some v => (some { status := "READY", value := some v }, h)
  | none => (none, setVar h k { st with lookout := true, eventSet := false })

/-- `/set_lookout` after `event.wait()` resumes: on a caught internal fault
the handler answers ERROR with a message; otherwise RECEIVED with the value
currently in the slot. The hub is not mutated on resumption. -/
def set_lookout_resume (h : Hub) (k : String) (fault : Bool) : Response :=
  if fault then
    { status := "ERROR", message := some ("Blocking wait failed for " ++ k) }
  else
    { status := "RECEIVED", value := (get_variable_state h k).value }

/-- A suspended `event.wait()` can resume only once the event is set. -/
def canWake (h : Hub) (k : String) : Bool := (get_variable_state h k).eventSet

/-- `/acknowledge`: reset `lookout`, clear the event and the message;
always answer OK. -/
def acknowledge (h : Hub) (k : String) : Response × Hub :=
  let st := get_variable_state h k
  ({ status := "OK" },
   setVar h k { st with lookout := false, eventSet := false, response_message := "" })

/-- `/update_variable` (Publish): overwrite the value unconditionally; if a
waiter is armed, set the event and report that the waiter was notified,
otherwise report that no client was waiting. `lookout` is not modified. -/
def update_variable (h : Hub) (k v : String) : Response × Hub :=
  let st := get_variable_state h k
  let st1 := { st with value := some v }
  if st1.lookout then
    ({ status := "OK",
       message := some ("Update complete. Client waiting for " ++ k ++ " notified.") },
     setVar h k { st1 with eventSet := true })
  else
    ({ status := "OK", message := some "Update complete. No client was waiting." },
     setVar h k st1)

/-- The state-mutating server operations, for reasoning about traces. -/
inductive Op
  | reqData (k : String)
  | armEntry (k : String)
  | ack (k : String)
  | publish (k v : String)
deriving DecidableEq, Repr

/-- State effect of one server operation. -/
def applyOp (h : Hub) : Op → Hub
  | .reqData k => (request_data h k).2
  | .armEntry k => (set_lookout_entry h k).2
  | .ack k => (acknowledge h k).2
  | .publish k v => (update_variable h k v).2

/-- State effect of a sequence of server operations. -/
def applyOps (h : Hub) : List Op → Hub
  | [] => h
  | op :: rest => applyOps (applyOp h op) rest

/-- Whether an operation is a Publish to the given key. -/
def publishesTo (k : String) : Op → Bool
  | .publish q _ => q == k
  | _ => false

/-- A decoded JSON response body as the client sees it: `.get` on a dict
returns `none` for a missing field. -/
structure ApiResponse where
  status : Option String := none
  value : Option String := none
deriving DecidableEq, Repr

/-- What one `receiveFromServer` call did: the value it returned to its
caller (None on failure) and whether it issued an `/acknowledge` call. -/
structure ReceiveOutcome where
  result : Option String
  ackCalled : Bool
deriving DecidableEq, Repr

/-- `receiveFromServer` from `core_utils.py`, parametrized by the transport
results of its status-check and blocking-wait calls (`none` models a falsy
`api_call` result: connection failure, timeout, non-200, bad JSON). -/
def receiveFromServer (initial_response wait_response : Option ApiResponse) :
    ReceiveOutcome :=
  match initial_response with
  | none => { result := none, ackCalled := false }
  | some r =>
    if r.status = some "READY" then { result := r.value, ackCalled := false }
    else if r.status ≠ some "PENDING" then { result := none, ackCalled := false }
    else
      match wait_response with
      | none => { result := none, ackCalled := false }
      | some w =>
        if (w.status = some "READY" ∨ w.status = some "RECEIVED") ∧ w.value ≠ none
        then { result := w.value, ackCalled := true }
        else { result := none, ackCalled := true }

/-- Python values a publisher may pass to `printToServer`. -/
inductive PyValue
  | str (s : String)
  | int (n : Int)
  | bool (b : Bool)
deriving DecidableEq, Repr

/-- Python's `str()` on those values. -/
def pyStr : PyValue → String
  | .str s => s
  | .int n => toString n
  | .bool b => if b then "True" else "False"

/-- `update_variable_x`: the transport wrapper posting `/update_variable`. -/
def update_variable_x (h : Hub) (k v : String) : Response × Hub :=
  update_variable h k v

/-- `printToServer`: publishes `str(var_value)`. -/
def printToServer (h : Hub) (k : String) (v : PyValue) : Response × Hub :=
  update_variable_x h k (pyStr v)

lemma setVar_self (h : Hub) (k : String) (s : VarState) : setVar h k s k = s := by
  simp [setVar]

lemma setVar_ne (h : Hub) (k q : String) (s : VarState) (hq : q ≠ k) :
    setVar h k s q = h q := by
  simp [setVar, hq]

lemma request_data_snd (h : Hub) (k : String) : (request_data h k).2 = h := by
  unfold request_data
  cases (get_variable_state h k).value <;> rfl

lemma request_data_ready (h : Hub) (k v : String) (hv : (h k).value = some v) :
    (request_data h k).1 = { status := "READY", value := some v } := by
  simp only [request_data, get_variable_state, hv]

lemma set_lookout_entry_some (h : Hub) (k v : String) (hv : (h k).value = some v) :
    set_lookout_entry h k = (some { status := "READY", value := some v }, h) := by
  simp only [set_lookout_entry, get_variable_state, hv]

lemma set_lookout_entry_none (h : Hub) (k : String) (hv : (h k).value = none) :
    (set_lookout_entry h k).2 k = { h k with lookout := true, eventSet := false } := by
  simp only [set_lookout_entry, get_variable_state, hv]
  exact setVar_self _ _ _

lemma acknowledge_self (h : Hub) (k : String) :
    (acknowledge h k).2 k =
      { h k with lookout := false, eventSet := false, response_message := "" } := by
  simp only [acknowledge, get_variable_state]
  exact setVar_self _ _ _

lemma acknowledge_frame (h : Hub) (k q : String) (hq : q ≠ k) :
    (acknowledge h k).2 q = h q := by
  simp only [acknowledge, get_variable_state]
  exact setVar_ne _ _ _ _ hq

lemma update_variable_self (h : Hub) (k v : String) :
    (update_variable h k v).2 k =
      { h k with value := some v, eventSet := (h k).lookout || (h k).eventSet } := by
  simp only [update_variable, get_variable_state]
  by_cases hl : (h k).lookout <;> simp [hl, setVar_self]

lemma update_variable_frame (h : Hub) (k v q : String) (hq : q ≠ k) :
    (update_variable h k v).2 q = h q := by
  simp only [update_variable, get_variable_state]
  by_cases hl : (h k).lookout <;> simp [hl, setVar_ne _ _ _ _ hq]

lemma update_variable_fst (h : Hub) (k v : String) :
    (update_variable h k v).1 =
      { status := "OK",
        message := some (if (h k).lookout then
            "Update complete. Client waiting for " ++ k ++ " notified."
          else "Update complete. No client was waiting.") } := by
  simp only [update_variable, get_variable_state]
  by_cases hl : (h k).lookout <;> simp [hl]

lemma eventSet_preserved (h : Hub) (k : String) (op : Op)
    (hev : (h k).eventSet = false) (hop : publishesTo k op = false) :
    (applyOp h op k).eventSet = false := by
  cases op with
  | reqData q =>
      show ((request_data h q).2 k).eventSet = false
      rw [request_data_snd]; exact hev
  | armEntry q =>
      show ((set_lookout_entry h q).2 k).eventSet = false
      rcases hv : (h q).value with _ | v
      · by_cases hk : k = q
        · subst hk; rw [set_lookout_entry_none h k hv]
        · simp only [set_lookout_entry, get_variable_state, hv]
          rw [setVar_ne _ _ _ _ hk]; exact hev
      · rw [set_lookout_entry_some h q v hv]; exact hev
  | ack q =>
      show ((acknowledge h q).2 k).eventSet = false
      by_cases hk : k = q
      · subst hk; rw [acknowledge_self]
      · rw [acknowledge_frame _ _ _ hk]; exact hev
  | publish q v =>
      show ((update_variable h q v).2 k).eventSet = false
      have hq : ¬(q = k) := by simpa [publishesTo] using hop
      have hk : k ≠ q := fun e => hq e.symm
      rw [update_variable_frame _ _ _ _ hk]; exact hev

lemma ack_ack (h : Hub) (k : String) :
    applyOp (applyOp h (Op.ack k)) (Op.ack k) = applyOp h (Op.ack k) := by
  funext q
  by_cases hq : q = k
  · subst hq
    show ((acknowledge (acknowledge h q).2 q).2 q) = ((acknowledge h q).2 q)
    rw [acknowledge_self, acknowledge_self]
  · show ((acknowledge (acknowledge h k).2 k).2 q) = ((acknowledge h k).2 q)
    rw [acknowledge_frame _ _ _ hq, acknowledge_frame _ _ _ hq]

lemma ack_iter (h : Hub) (k : String) (n : Nat) :
    applyOps h (List.replicate (n + 1) (Op.ack k)) = applyOps h [Op.ack k] := by
  induction n generalizing h with
  | zero => rfl
  | succ m ih =>
      show applyOps (applyOp h (Op.ack k)) (List.replicate (m + 1) (Op.ack k)) = _
      rw [ih (applyOp h (Op.ack k))]
      show applyOp (applyOp h (Op.ack k)) (Op.ack k) = applyOp h (Op.ack k)
      exact ack_ack h k

/-- C1 counterexample: `receiveFromServer` suffers a transport failure at
the blocking-wait stage (initial status PENDING, `start_blocking_wait`
returns a falsy result). The outcome is absent, yet the driver returns
without ever calling `/acknowledge`, contrary to the claim that every
non-value-bearing outcome is followed by a best-effort Acknowledge. -/
theorem C1_counterexample :
    (receiveFromServer (some { status := some "PENDING" }) none).result = none ∧
    ¬((receiveFromServer (some { status := some "PENDING" }) none).ackCalled = true) := by
  decide

/-- C1 (amended): the driver calls Acknowledge exactly when the initial
status was PENDING and the blocking-wait stage returned a parseable
response. A wait response that is not a value-bearing READY/RECEIVED is
acknowledged and yields an absent result; transport failures at either
stage, and unexpected initial statuses, yield an absent result without any
Acknowledge attempt. -/
theorem C1_receive_ack_policy (i w : Option ApiResponse) :
    ((receiveFromServer i w).ackCalled = true ↔
      (∃ r, i = some r ∧ r.status = some "PENDING") ∧ w ≠ none) ∧
    (receiveFromServer none w = { result := none, ackCalled := false }) ∧
    (∀ r, i = some r → r.status ≠ some "READY" → r.status ≠ some "PENDING" →
      receiveFromServer i w = { result := none, ackCalled := false }) ∧
    (∀ r, i = some r → r.status = some "PENDING" →
      receiveFromServer i none = { result := none, ackCalled := false }) ∧
    (∀ r wr, i = some r → r.status = some "PENDING" → w = some wr →
      ¬((wr.status = some "READY" ∨ wr.status = some "RECEIVED") ∧ wr.value ≠ none) →
      receiveFromServer i w = { result := none, ackCalled := true }) := by
  refine ⟨?_, rfl, ?_, ?_, ?_⟩
  · cases i with
    | none => simp [receiveFromServer]
    | some r =>
        constructor
        · intro hc
          by_cases hry : r.status = some "READY"
          · exfalso
            simp [receiveFromServer, hry] at hc
          · by_cases hp : r.status = some "PENDING"
            · refine ⟨⟨r, rfl, hp⟩, ?_⟩
              cases w with
              | none => exfalso; simp [receiveFromServer, hry, hp] at hc
              | some wr => simp
            · exfalso
              simp [receiveFromServer, hry, hp] at hc
        · rintro ⟨⟨r1, hr1, hp1⟩, hw⟩
          injection hr1 with e
          subst e
          have hry : r.status ≠ some "READY" := by simp [hp1]
          cases w with
          | none => exact absurd rfl hw
          | some wr =>
              simp only [receiveFromServer]
              rw [if_neg hry, if_neg (by simp [hp1])]
              by_cases hv : (wr.status = some "READY" ∨ wr.status = some "RECEIVED") ∧
                  wr.value ≠ none
              · rw [if_pos hv]
              · rw [if_neg hv]
  · rintro r rfl h1 h2
    simp [receiveFromServer, h1, h2]
  · rintro r rfl h2
    simp [receiveFromServer, h2]
  · rintro r wr rfl h2 rfl hnv
    have h1 : r.status ≠ some "READY" := by simp [h2]
    simp only [receiveFromServer]
    rw [if_neg h1, if_neg (by simp [h2]), if_neg hnv]

/-- C1 witness: the amended theorem applied at a concrete ERROR wait
response and at a concrete blocking-wait transport failure. -/
theorem C1_receive_ack_policy_witness :
    receiveFromServer (some { status := some "PENDING" })
        (some { status := some "ERROR" }) = { result := none, ackCalled := true } ∧
    receiveFromServer (some { status := some "PENDING" }) none =
        { result := none, ackCalled := false } :=
  ⟨(C1_receive_ack_policy (some { status := some "PENDING" })
      (some { status := some "ERROR" })).2.2.2.2 _ _ rfl rfl rfl (by decide),
   (C1_receive_ack_policy (some { status := some "PENDING" })
      none).2.2.2.1 _ rfl rfl⟩

/-- C2: the server-side ArmAndWait never produces a TIMEOUT status — the
immediate READY reply, the RECEIVED reply on wake, and the ERROR reply on a
wait fault are its only responses — and once armed the waiter suspends with
the event clear, so any sequence of further operations containing no
Publish to that key leaves the event clear and the waiter blocked, whatever
the caller-side timeout was. -/
theorem C2_no_server_timeout :
    (∀ (h : Hub) (k : String) (r : Response) (h2 : Hub),
      set_lookout_entry h k = (some r, h2) → r.status ≠ "TIMEOUT") ∧
    (∀ (h : Hub) (k : String) (fault : Bool),
      (set_lookout_resume h k fault).status ≠ "TIMEOUT") ∧
    (∀ (h : Hub) (k : String) (ops : List Op),
      (h k).eventSet = false → (∀ op ∈ ops, publishesTo k op = false) →
      canWake (applyOps h ops) k = false) := by
  refine ⟨?_, ?_, ?_⟩
  · intro h k r h2 he
    have hr : r.status = "READY" := by
      rcases hv : (h k).value with _ | v
      · simp only [set_lookout_entry, get_variable_state, hv] at he
        simp at he
      · rw [set_lookout_entry_some h k v hv] at he
        have h1 := congrArg (fun p : Option Response × Hub => p.1) he
        simp only at h1
        injection h1 with h1
        rw [← h1]
    rw [hr]
    decide
  · intro h k fault
    cases fault
    · simp [set_lookout_resume]
    · simp [set_lookout_resume]
  · intro h k ops
    induction ops generalizing h with
    | nil =>
        intro hev _
        exact hev
    | cons op rest ih =>
        intro hev hall
        exact ih (applyOp h op)
          (eventSet_preserved h k op hev (hall op (by simp)))
          (fun o ho => hall o (by simp [ho]))

/-- C2 witness: the no-TIMEOUT theorem applied at a concrete hub holding a
value (immediate READY branch), at a faulting resumption, and at an armed
waiter followed by a publish-free trace that leaves it blocked. -/
theorem C2_no_server_timeout_witness :
    (Response.status { status := "READY", value := some "v" } ≠ "TIMEOUT") ∧
    ((set_lookout_resume emptyHub "x" true).status ≠ "TIMEOUT") ∧
    (canWake (applyOps (applyOp emptyHub (Op.armEntry "x"))
        [Op.reqData "x", Op.ack "x", Op.publish "y" "1"]) "x" = false) := by
  refine ⟨?_, C2_no_server_timeout.2.1 emptyHub "x" true, ?_⟩
  · exact C2_no_server_timeout.1 (fun _ => { initVarState with value := some "v" })
      "x" _ _ (by rfl)
  · exact C2_no_server_timeout.2.2 (applyOp emptyHub (Op.armEntry "x")) "x"
      [Op.reqData "x", Op.ack "x", Op.publish "y" "1"] (by decide) (by decide)

/-- C3: if a key's value is present when `/set_lookout` begins — in
particular right after a Publish that landed between the caller's
check-status call and this one — the handler returns READY with that value
at once, leaving the hub untouched: no arming, no event clearing, no
suspension. -/
theorem C3_double_check_ready (h h0 : Hub) (k v : String)
    (hv : (h k).value = some v) :
    set_lookout_entry h k = (some { status := "READY", value := some v }, h) ∧
    set_lookout_entry (update_variable h0 k v).2 k =
      (some { status := "READY", value := some v }, (update_variable h0 k v).2) := by
  refine ⟨set_lookout_entry_some h k v hv, set_lookout_entry_some _ k v ?_⟩
  rw [update_variable_self]

/-- C3 witness: the double-check theorem at a concrete one-value hub and
after a concrete publish. -/
theorem C3_double_check_ready_witness :
    set_lookout_entry (fun _ => { initVarState with value := some "42" } : Hub) "x" =
      (some { status := "READY", value := some "42" },
       (fun _ => { initVarState with value := some "42" } : Hub)) ∧
    set_lookout_entry (update_variable emptyHub "x" "42").2 "x" =
      (some { status := "READY", value := some "42" },
       (update_variable emptyHub "x" "42").2) :=
  C3_double_check_ready (fun _ => { initVarState with value := some "42" })
    emptyHub "x" "42" rfl

/-- C4: with a waiter armed on a key, a Publish sets the event (so the
suspended `event.wait()` can resume), and the woken handler returns
RECEIVED with the value in the slot at wake time — the last Publish before
resumption; with two Publishes before the wake, the first value is
unobservable. -/
theorem C4_woken_gets_last_value (h : Hub) (k v1 v2 : String)
    (harm : (h k).lookout = true) :
    canWake (update_variable h k v2).2 k = true ∧
    set_lookout_resume (update_variable h k v2).2 k false =
      { status := "RECEIVED", value := some v2 } ∧
    set_lookout_resume (applyOps h [Op.publish k v1, Op.publish k v2]) k false =
      { status := "RECEIVED", value := some v2 } := by
  refine ⟨?_, ?_, ?_⟩
  · show ((update_variable h k v2).2 k).eventSet = true
    rw [update_variable_self]
    simp [harm]
  · simp [set_lookout_resume, get_variable_state, update_variable_self]
  · simp [applyOps, applyOp, set_lookout_resume, get_variable_state,
      update_variable_self]

/-- C4 witness: a concrete armed hub, published twice. -/
theorem C4_woken_gets_last_value_witness :
    canWake (update_variable (fun _ => { initVarState with lookout := true } : Hub)
      "x" "b").2 "x" = true ∧
    set_lookout_resume (update_variable
      (fun _ => { initVarState with lookout := true } : Hub) "x" "b").2 "x" false =
      { status := "RECEIVED", value := some "b" } ∧
    set_lookout_resume (applyOps
      (fun _ => { initVarState with lookout := true } : Hub)
      [Op.publish "x" "a", Op.publish "x" "b"]) "x" false =
      { status := "RECEIVED", value := some "b" } :=
  C4_woken_gets_last_value (fun _ => { initVarState with lookout := true })
    "x" "a" "b" rfl

/-- C5: Publish-then-CheckStatus round-trips the exact value, and with two
Publishes and no armed wait the second value wins — the state at the key
after publishing "a" then "b" equals the state after publishing "b" alone,
so "a" is unobservable. -/
theorem C5_last_write_wins (h : Hub) (k v a b : String) :
    (request_data (update_variable h k v).2 k).1 =
      { status := "READY", value := some v } ∧
    (request_data (applyOps h [Op.publish k a, Op.publish k b]) k).1 =
      { status := "READY", value := some b } ∧
    applyOps h [Op.publish k a, Op.publish k b] k =
      applyOps h [Op.publish k b] k := by
  refine ⟨?_, ?_, ?_⟩
  · exact request_data_ready _ _ _ (by rw [update_variable_self])
  · refine request_data_ready _ _ _ ?_
    show ((update_variable (update_variable h k a).2 k b).2 k).value = some b
    rw [update_variable_self]
  · show (update_variable (update_variable h k a).2 k b).2 k =
      (update_variable h k b).2 k
    rw [update_variable_self, update_variable_self, update_variable_self]
    simp [Bool.or_assoc]

/-- C6: Acknowledge always answers OK and leaves the key disarmed with the
event clear; iterating it any positive number of times produces the same
hub as one call, and it is total in any state, the never-published initial
state included. -/
theorem C6_acknowledge_idempotent (h : Hub) (k : String) (n : Nat) :
    (acknowledge h k).1 = { status := "OK" } ∧
    ((acknowledge h k).2 k).lookout = false ∧
    ((acknowledge h k).2 k).eventSet = false ∧
    applyOps h (List.replicate (n + 1) (Op.ack k)) = applyOps h [Op.ack k] ∧
    (acknowledge emptyHub k).1 = { status := "OK" } := by
  refine ⟨rfl, ?_, ?_, ack_iter h k n, rfl⟩
  · rw [acknowledge_self]
  · rw [acknowledge_self]

/-- C7: no operation but Publish ever changes a key's value slot —
CheckStatus and Acknowledge preserve every value, the arming phase of
ArmAndWait preserves every value, resumption reads the slot as-is — and in
the end-to-end scenario the waiter woken by Publish("k","42") observes
"42", and after Acknowledge a CheckStatus still answers READY with "42". -/
theorem C7_value_retained (h : Hub) (k q : String) :
    ((request_data h k).2 q).value = (h q).value ∧
    ((acknowledge h k).2 q).value = (h q).value ∧
    ((set_lookout_entry h k).2 q).value = (h q).value ∧
    set_lookout_resume (applyOps h [Op.publish k "42"]) k false =
      { status := "RECEIVED", value := some "42" } ∧
    (request_data (applyOps h [Op.publish k "42", Op.ack k]) k).1 =
      { status := "READY", value := some "42" } := by
  refine ⟨?_, ?_, ?_, ?_, ?_⟩
  · rw [request_data_snd]
  · by_cases hq : q = k
    · subst hq; rw [acknowledge_self]
    · rw [acknowledge_frame _ _ _ hq]
  · rcases hv : (h k).value with _ | v
    · by_cases hq : q = k
      · subst hq
        rw [set_lookout_entry_none _ _ hv]
      · simp only [set_lookout_entry, get_variable_state, hv]
        rw [setVar_ne _ _ _ _ hq]
    · rw [set_lookout_entry_some _ _ _ hv]
  · simp [applyOps, applyOp, set_lookout_resume, get_variable_state,
      update_variable_self]
  · refine request_data_ready _ _ _ ?_
    show ((acknowledge (update_variable h k "42").2 k).2 k).value = some "42"
    rw [acknowledge_self]
    show ((update_variable h k "42").2 k).value = some "42"
    rw [update_variable_self]

/-- C8: Publish never modifies the armed flag of any key; the event at the
published key ends up set exactly when a waiter was armed (and is left
alone otherwise); the reply's message says whether a waiter was notified;
CheckStatus leaves armed flags alone, the arming phase of ArmAndWait can
only raise a flag (never lower one), and Acknowledge is the operation that
resets it. -/
theorem C8_publish_preserves_armed (h : Hub) (k v q : String) :
    ((update_variable h k v).2 q).lookout = (h q).lookout ∧
    ((update_variable h k v).2 k).eventSet = ((h k).lookout || (h k).eventSet) ∧
    (update_variable h k v).1 =
      { status := "OK",
        message := some (if (h k).lookout then
            "Update complete. Client waiting for " ++ k ++ " notified."
          else "Update complete. No client was waiting.") } ∧
    ((request_data h k).2 q).lookout = (h q).lookout ∧
    ((set_lookout_entry h k).2 q).lookout =
      ((h q).lookout || ((q == k) && (h k).value.isNone)) ∧
    ((acknowledge h k).2 k).lookout = false := by
  refine ⟨?_, ?_, update_variable_fst h k v, ?_, ?_, ?_⟩
  · by_cases hq : q = k
    · subst hq; rw [update_variable_self]
    · rw [update_variable_frame _ _ _ _ hq]
  · rw [update_variable_self]
  · rw [request_data_snd]
  · rcases hv : (h k).value with _ | w
    · by_cases hq : q = k
      · subst hq
        rw [set_lookout_entry_none _ _ hv]
        simp
      · simp only [set_lookout_entry, get_variable_state, hv]
        rw [setVar_ne _ _ _ _ hq]
        simp [hq]
    · rw [set_lookout_entry_some _ _ _ hv]
      simp [hv]
  · rw [acknowledge_self]

/-- C9: a fault caught while suspended in `/set_lookout` is converted into
an ERROR response carrying a message; resumption is a total function whose
status is always RECEIVED or ERROR, so the handler never ends the wait with
an uncaught exception. -/
theorem C9_wait_fault_becomes_error (h : Hub) (k : String) :
    set_lookout_resume h k true =
      { status := "ERROR", message := some ("Blocking wait failed for " ++ k) } ∧
    ∀ fault : Bool, (set_lookout_resume h k fault).status = "RECEIVED" ∨
      (set_lookout_resume h k fault).status = "ERROR" := by
  refine ⟨rfl, ?_⟩
  intro fault
  cases fault
  · left; rfl
  · right; rfl

/-- C10: `printToServer` publishes `str(var_value)`: the stored slot and a
subsequent CheckStatus both carry the string rendering of the argument, so
the integer 5 comes back as the string "5" and True as "True". -/
theorem C10_printToServer_stringifies (h : Hub) (k : String) (v : PyValue) :
    ((printToServer h k v).2 k).value = some (pyStr v) ∧
    (request_data (printToServer h k v).2 k).1 =
      { status := "READY", value := some (pyStr v) } ∧
    pyStr (PyValue.int 5) = "5" ∧ pyStr (PyValue.bool true) = "True" := by
  refine ⟨?_, ?_, rfl, rfl⟩
  · show ((update_variable h k (pyStr v)).2 k).value = some (pyStr v)
    rw [update_variable_self]
  · refine request_data_ready _ _ _ ?_
    show ((update_variable h k (pyStr v)).2 k).value = some (pyStr v)
    rw [update_variable_self]
